import Mathlib

/-!
Verification of the parser and typed AST model declared in src/src/parser.h
(the front end of the yabl compiler).  The header is the authority for the
data model (enumerations, AST classes, constructors, default arguments); the
bodies of the parsing functions are not part of the provided sources, so they
are modelled from the specification (each such definition carries a doc
comment starting with "Modelled from the spec:").  Parsing is embedded as
pure functions: the global token vector toks of parser.h line 251 is
assigned once per parse invocation and only read afterwards, so it is
threaded as a read-only argument, while the global cursor tok_pointer of
line 253 is the explicit state, passed in and returned.  A parse returns an
Except value: a failure carries a human-readable message and the offending
token position.  Recursive parsers take an explicit fuel argument; running
out of fuel is a failure, so every success of the model is a genuine
terminating run.
-/

namespace Yabl

/-- Node_Types enumeration, exactly the tags of parser.h lines 28-42. -/
inductive Node_Types where
  | UnknownNode
  | NumberExpressionNode
  | VariableExpressionNode
  | BinaryExpressionNode
  | CallExpressionNode
  | FunctionDeclarationNode
  | VariableDeclarationNode
  | ReturnNode
  | TypeCastNode
  | AssignmentNode
  | IfNode
  | ImportNode
deriving DecidableEq, Repr

/-- Variable_Types enumeration, exactly parser.h lines 44-55.  type_null is
the sentinel meaning unannotated / to be inferred from context. -/
inductive Variable_Types where
  | type_null
  | type_i64
  | type_i32
  | type_i16
  | type_i8
  | type_float
  | type_double
  | type_bool
  | type_void
deriving DecidableEq, Repr

/-- Modelled from the spec: lexer.h is not among the provided sources; the
token-kind enumeration follows the lexer contract of spec section 6 (type
keywords, identifiers, literals, punctuation, comparison operators,
short-circuit joiners, keywords, end-of-input).  Arithmetic operator tokens
are a single kind op_tok; precedence lookup uses the lexeme only. -/
inductive Token_Types where
  | kw_fn
  | kw_return
  | kw_if
  | kw_import
  | type_kw
  | identifier
  | int_lit
  | float_lit
  | bool_lit
  | string_lit
  | lparen
  | rparen
  | lbrace
  | rbrace
  | comma
  | semicolon
  | eq_tok
  | arrow
  | lt_tok
  | gt_tok
  | le_tok
  | ge_tok
  | eq_eq
  | not_eq
  | and_and
  | or_or
  | op_tok
  | eof
deriving DecidableEq, Repr

/-- Modelled from the spec: a lexer token carries a kind, a lexeme string and
a source position (section 6); the position is modelled as a single Nat. -/
structure Token where
  kind : Token_Types
  lexeme : String
  pos : Nat
deriving DecidableEq, Repr

/-- End-of-input marker returned by the cursor past the last token. -/
def eof_token : Token := ⟨.eof, "", 0⟩

/-- Current token of the cursor (cur_tok of parser.h line 252): the token at
the cursor index, or the end-of-input marker past the end. -/
def cur_tok (toks : List Token) (p : Nat) : Token := toks.getD p eof_token

/-- Modelled from the spec: get_next_token (parser.h line 260) advances the
cursor by one and is a no-op past the end (spec section 4.1). -/
def get_next_token (toks : List Token) (p : Nat) : Nat :=
  if p < toks.length then p + 1 else p

/-- Modelled from the spec: the binary operator precedence table
bin_op_precedence (parser.h line 254) is seeded by setup code outside the
header; the spec (section 9) gives the seeding used here. -/
def bin_op_precedence : List (String × Int) :=
  [("=", 2), ("<", 10), (">", 10), ("+", 20), ("-", 20), ("*", 40), ("/", 40)]

/-- Precedence of a lexeme: table lookup, -1 when absent (spec section 4.1). -/
def prec_of (s : String) : Int :=
  Option.getD (List.lookup s bin_op_precedence) (-1)

/-- Modelled from the spec: get_tok_precedence (parser.h line 259) looks up
the lexeme of the current token in the precedence table and returns -1 when
the lexeme is absent. -/
def get_tok_precedence (toks : List Token) (p : Nat) : Int :=
  prec_of (cur_tok toks p).lexeme

/-- Modelled from the spec: type_string_to_variable_type (parser.h line 264),
the pure keyword-to-type mapping of spec section 4.2; any other string maps
to the null sentinel. -/
def type_string_to_variable_type (s : String) : Variable_Types :=
  if s = "i64" then .type_i64
  else if s = "i32" then .type_i32
  else if s = "i16" then .type_i16
  else if s = "i8" then .type_i8
  else if s = "float" then .type_float
  else if s = "double" then .type_double
  else if s = "bool" then .type_bool
  else if s = "void" then .type_void
  else .type_null

/-- Modelled from the spec: token_type_to_variable_type (parser.h line 265)
maps numeric-literal token kinds to types (spec section 4.2): integer
literal to i32, floating literal to double, boolean literal to bool. -/
def token_type_to_variable_type (k : Token_Types) : Variable_Types :=
  match k with
  | .int_lit => .type_i32
  | .float_lit => .type_double
  | .bool_lit => .type_bool
  | _ => .type_null

/-- Failure value of a parse: a human-readable message plus the source
position of the offending token (spec section 7). -/
structure PErr where
  msg : String
  pos : Nat
deriving DecidableEq, Repr

/-- Modelled from the spec: the error helpers of parser.h lines 262-263
abort the parse, reporting the message together with the position of the
current (offending) token. -/
def error_at (msg : String) (toks : List Token) (p : Nat) : Except PErr α :=
  .error ⟨msg, (cur_tok toks p).pos⟩

/-- Failure used when the explicit fuel of the model is exhausted; the C++
code has no such bound, so fuel exhaustion is only ever a failure, never a
wrong success. -/
def fuel_error : Except PErr α := .error ⟨"fuel exhausted", 0⟩

/-- IR value handle (llvm Value pointer) modelled as a Nat; 0 models the
null pointer. -/
abbrev IRValue := Nat

/-- IR basic-block handle (llvm BasicBlock pointer) modelled as a Nat; 0
models the null pointer. -/
abbrev IRBB := Nat

/-- Prototype_Node of parser.h lines 114-129: name, arg_types, arg_names,
return_type, in constructor order. -/
structure Prototype_Node where
  name : String
  arg_types : List Variable_Types
  arg_names : List String
  return_type : Variable_Types
deriving DecidableEq, Repr

mutual

/-- Expression_Node hierarchy of parser.h as a sum: Number_Expression_Node,
Variable_Expression_Node, Binary_Expression_Node, Call_Expression_Node,
Type_Cast_Node, Assignment_Node, If_Node, Import_Node, String_Expression.
The numeric value a Number carries is double in C++ (stod of the lexeme); no
arithmetic is performed on it at parse time, so the model carries the lexeme
string itself. -/
inductive Expr where
  | Number : String → Variable_Types → Expr
  | Variable : String → Expr
  | Binary : String → Expr → Expr → Expr
  | Call : String → List Expr → Expr
  | TypeCast : Expr → Variable_Types → Expr
  | Assignment : String → Expr → Expr
  | Str : String → Expr
  | IfE : List Condition → List Token_Types → List Node → Expr
  | Import : String → Expr

/-- Condition_Expression of parser.h lines 200-213: lhs, comparison token
kind, rhs. -/
inductive Condition where
  | mk : Expr → Token_Types → Expr → Condition

/-- Variable_Node of parser.h lines 156-166: name, type, initializer. -/
inductive Variable_Node where
  | mk : String → Variable_Types → Expr → Variable_Node

/-- Return_Node of parser.h lines 168-176: the returned value. -/
inductive Return_Node where
  | mk : Expr → Return_Node

/-- Function_Node of parser.h lines 131-154, field order proto, body,
variables, arg_types, return_value_ptr, end_bb.  The variables map is the
codegen-time scope; return_value_ptr and end_bb are raw pointer handles. -/
inductive Function_Node where
  | mk : Prototype_Node → List Node → List (String × IRValue) →
      List Variable_Types → IRValue → IRBB → Function_Node

/-- One alternative of the payload variant of parser.h line 61: each of the
six slots of Node is a variant that may hold any of the six pointer
alternatives, so a slot is modelled as an Option of this sum. -/
inductive NodePayload where
  | ExprP : Expr → NodePayload
  | VarP : Variable_Node → NodePayload
  | FuncP : Function_Node → NodePayload
  | ProtoP : Prototype_Node → NodePayload
  | RetP : Return_Node → NodePayload
  | CallP : String → List Expr → NodePayload

/-- Node of parser.h lines 57-62: a type tag plus the six payload slots
expression_node, variable_node, function_node, prototype_node, return_node,
call_node, in that order.  In C++ each slot is a variant of six owning
pointers and may be empty (null pointer in every alternative); an empty slot
is modelled as none. -/
inductive Node where
  | mk : Node_Types → Option NodePayload → Option NodePayload →
      Option NodePayload → Option NodePayload → Option NodePayload →
      Option NodePayload → Node

end

/-- Tag of a Node value. -/
def Node.type : Node → Node_Types
  | .mk t _ _ _ _ _ _ => t

/-- The expression_node slot of a Node. -/
def Node.expression_node : Node → Option NodePayload
  | .mk _ e _ _ _ _ _ => e

/-- The variable_node slot of a Node. -/
def Node.variable_node : Node → Option NodePayload
  | .mk _ _ v _ _ _ _ => v

/-- The function_node slot of a Node. -/
def Node.function_node : Node → Option NodePayload
  | .mk _ _ _ f _ _ _ => f

/-- The prototype_node slot of a Node. -/
def Node.prototype_node : Node → Option NodePayload
  | .mk _ _ _ _ p _ _ => p

/-- The return_node slot of a Node. -/
def Node.return_node : Node → Option NodePayload
  | .mk _ _ _ _ _ r _ => r

/-- The call_node slot of a Node. -/
def Node.call_node : Node → Option NodePayload
  | .mk _ _ _ _ _ _ c => c

/-- Projection of Function_Node named after the getter of parser.h. -/
def Function_Node.get_proto : Function_Node → Prototype_Node
  | .mk p _ _ _ _ _ => p

/-- Body of a Function_Node. -/
def Function_Node.body : Function_Node → List Node
  | .mk _ b _ _ _ _ => b

/-- Codegen-time variable scope map of a Function_Node. -/
def Function_Node.variables : Function_Node → List (String × IRValue)
  | .mk _ _ v _ _ _ => v

/-- Argument types stored on a Function_Node (getter get_arg_types). -/
def Function_Node.get_arg_types : Function_Node → List Variable_Types
  | .mk _ _ _ a _ _ => a

/-- Return-slot handle of a Function_Node (getter get_return_value_ptr). -/
def Function_Node.get_return_value_ptr : Function_Node → IRValue
  | .mk _ _ _ _ r _ => r

/-- Terminal basic-block handle of a Function_Node (getter get_end_bb). -/
def Function_Node.get_end_bb : Function_Node → IRBB
  | .mk _ _ _ _ _ e => e

/-- Scope lookup get_variable of parser.h line 149, modelled as association
lookup in the variables map. -/
def Function_Node.get_variable (f : Function_Node) (name : String) :
    Option IRValue :=
  List.lookup name f.variables

/-- Constructor of Function_Node, parser.h lines 141-145: the initializer
list sets proto, body and arg_types; the std::map member variables is
default-constructed (empty); the raw pointer members return_value_ptr and
end_bb receive no initializer, so their contents after construction are
indeterminate.  The indeterminate contents are modelled as explicit
arguments uninit_ret and uninit_end passed through unchanged. -/
def Function_Node.ctor (proto : Prototype_Node) (body : List Node)
    (types : List Variable_Types) (uninit_ret : IRValue) (uninit_end : IRBB) :
    Function_Node :=
  .mk proto body [] types uninit_ret uninit_end

/-- Default value of the needs_semicolon parameter of parse_expression
(parser.h line 274). -/
def parse_expression_default_needs_semicolon : Bool := true

/-- Default value of the type parameter of parse_expression (parser.h line
274): the i32 default applied at the expression entry point. -/
def parse_expression_default_type : Variable_Types := .type_i32

/-- Default value of the type parameter of parse_primary (parser.h line
272): the null sentinel. -/
def parse_primary_default_type : Variable_Types := .type_null

/-- Default value of the type parameter of parse_bin_op_rhs (parser.h line
273): the null sentinel. -/
def parse_bin_op_rhs_default_type : Variable_Types := .type_null

/-- Effective type carried by a numeric literal parsed under context type
ty: a null context falls back to the type of the literal token kind, and a
non-null context is used as is (spec sections 4.2 and 4.3, scenarios S1, S2
and S5). -/
def number_type_of (ty : Variable_Types) (k : Token_Types) : Variable_Types :=
  if ty = .type_null then token_type_to_variable_type k else ty

/-- Modelled from the spec: parse_number_expression (parser.h line 269)
consumes the literal token and emits a Number node; the null context type is
substituted per the contextual typing rule of spec section 4.3. -/
def parse_number_expression (toks : List Token) (ty : Variable_Types)
    (p : Nat) : Except PErr (Expr × Nat) :=
  .ok (.Number (cur_tok toks p).lexeme (number_type_of ty (cur_tok toks p).kind),
    get_next_token toks p)

/-- Modelled from the spec: parse_string_expression (parser.h line 283)
consumes the literal and emits a String node (spec section 4.3). -/
def parse_string_expression (toks : List Token) (p : Nat) :
    Except PErr (Expr × Nat) :=
  .ok (.Str (cur_tok toks p).lexeme, get_next_token toks p)

/-- Modelled from the spec: parse_import (parser.h line 282) consumes the
keyword and a path string literal and emits an Import node. -/
def parse_import (toks : List Token) (p : Nat) : Except PErr (Expr × Nat) :=
  let p1 := get_next_token toks p
  match (cur_tok toks p1).kind with
  | .string_lit => .ok (.Import (cur_tok toks p1).lexeme, get_next_token toks p1)
  | _ => error_at "expected a path string literal" toks p1

/-- Modelled from the spec: the parameter loop of parse_prototype, consuming
type-identifier pairs separated by commas and terminated by a closing paren
(spec section 4.5 step 2); types and names are appended in parallel. -/
def parse_proto_params (toks : List Token) (fuel : Nat)
    (tys : List Variable_Types) (names : List String) (p : Nat) :
    Except PErr ((List Variable_Types × List String) × Nat) :=
  match fuel with
  | 0 => fuel_error
  | fuel + 1 =>
    match (cur_tok toks p).kind with
    | .type_kw =>
      let t := type_string_to_variable_type (cur_tok toks p).lexeme
      if t = .type_null then error_at "unknown parameter type keyword" toks p
      else
        let p1 := get_next_token toks p
        match (cur_tok toks p1).kind with
        | .identifier =>
          let nm := (cur_tok toks p1).lexeme
          let p2 := get_next_token toks p1
          match (cur_tok toks p2).kind with
          | .comma =>
            parse_proto_params toks fuel (tys ++ [t]) (names ++ [nm])
              (get_next_token toks p2)
          | .rparen => .ok ((tys ++ [t], names ++ [nm]), get_next_token toks p2)
          | _ =>
            error_at "expected comma or closing paren in parameter list" toks p2
        | _ => error_at "expected parameter name" toks p1
    | _ => error_at "expected parameter type keyword" toks p

/-- Modelled from the spec: parse_prototype (parser.h line 276) parses
identifier, parameter list in parens, the arrow and the return type keyword
(spec section 4.5 step 2), emitting a Prototype node whose arg_types and
arg_names are parallel lists. -/
def parse_prototype (toks : List Token) (fuel : Nat) (p : Nat) :
    Except PErr (Prototype_Node × Nat) :=
  match (cur_tok toks p).kind with
  | .identifier =>
    let name := (cur_tok toks p).lexeme
    let p1 := get_next_token toks p
    match (cur_tok toks p1).kind with
    | .lparen =>
      let p2 := get_next_token toks p1
      let params : Except PErr ((List Variable_Types × List String) × Nat) :=
        match (cur_tok toks p2).kind with
        | .rparen => .ok ((([] : List Variable_Types), ([] : List String)),
            get_next_token toks p2)
        | _ => parse_proto_params toks fuel [] [] p2
      match params with
      | .error e => .error e
      | .ok ((tys, names), p3) =>
        match (cur_tok toks p3).kind with
        | .arrow =>
          let p4 := get_next_token toks p3
          match (cur_tok toks p4).kind with
          | .type_kw =>
            let rt := type_string_to_variable_type (cur_tok toks p4).lexeme
            if rt = .type_null then
              error_at "unknown return type keyword" toks p4
            else .ok (⟨name, tys, names, rt⟩, get_next_token toks p4)
          | _ => error_at "expected return type keyword" toks p4
        | _ => error_at "expected arrow after parameter list" toks p3
    | _ => error_at "expected opening paren in prototype" toks p1
  | _ => error_at "expected function name" toks p

/-- Tag a parsed expression statement with the Node_Types value matching its
shape; String expressions have no tag in the enumeration and fall back to
UnknownNode. -/
def expr_tag : Expr → Node_Types
  | .Number _ _ => .NumberExpressionNode
  | .Variable _ => .VariableExpressionNode
  | .Binary _ _ _ => .BinaryExpressionNode
  | .Call _ _ => .CallExpressionNode
  | .TypeCast _ _ => .TypeCastNode
  | .Assignment _ _ => .AssignmentNode
  | .Str _ => .UnknownNode
  | .IfE _ _ _ => .IfNode
  | .Import _ => .ImportNode

/-- Comparison token kinds accepted inside if conditions (spec section 4.4). -/
def is_comparison : Token_Types → Bool
  | .lt_tok => true
  | .gt_tok => true
  | .le_tok => true
  | .ge_tok => true
  | .eq_eq => true
  | .not_eq => true
  | _ => false

mutual

/-- Modelled from the spec: parse_primary (parser.h line 272) dispatches on
the current token kind per the table of spec section 4.3. -/
def parse_primary (toks : List Token) (fuel : Nat) (p : Nat)
    (ty : Variable_Types) : Except PErr (Expr × Nat) :=
  match fuel with
  | 0 => fuel_error
  | fuel + 1 =>
    match (cur_tok toks p).kind with
    | .int_lit => parse_number_expression toks ty p
    | .float_lit => parse_number_expression toks ty p
    | .bool_lit => parse_number_expression toks ty p
    | .identifier => parse_identifier_expression toks fuel p
    | .lparen => parse_paren_expression toks fuel p
    | .type_kw => parse_typecast_expression toks fuel p
    | .kw_if => parse_if toks fuel .type_null p
    | .kw_import => parse_import toks p
    | .string_lit => parse_string_expression toks p
    | _ => error_at "unknown token when expecting an expression" toks p
termination_by structural fuel

/-- Modelled from the spec: parse_identifier_expression (parser.h line 271)
consumes the identifier and dispatches on the next token: a paren starts a
call argument list, an equals sign starts an assignment, anything else
leaves a plain variable reference (spec section 4.3). -/
def parse_identifier_expression (toks : List Token) (fuel : Nat) (p : Nat) :
    Except PErr (Expr × Nat) :=
  match fuel with
  | 0 => fuel_error
  | fuel + 1 =>
    let name := (cur_tok toks p).lexeme
    let p1 := get_next_token toks p
    match (cur_tok toks p1).kind with
    | .lparen =>
      let p2 := get_next_token toks p1
      match (cur_tok toks p2).kind with
      | .rparen => .ok (.Call name [], get_next_token toks p2)
      | _ =>
        match parse_call_args toks fuel [] p2 with
        | .error e => .error e
        | .ok (args, p3) => .ok (.Call name args, p3)
    | .eq_tok =>
      let p2 := get_next_token toks p1
      match parse_expression toks fuel p2 false .type_i32 with
      | .error e => .error e
      | .ok (v, p3) => .ok (.Assignment name v, p3)
    | _ => .ok (.Variable name, p1)
termination_by structural fuel

/-- Modelled from the spec: the comma-separated call argument list of
parse_identifier_expression, terminated by a closing paren. -/
def parse_call_args (toks : List Token) (fuel : Nat) (args : List Expr)
    (p : Nat) : Except PErr (List Expr × Nat) :=
  match fuel with
  | 0 => fuel_error
  | fuel + 1 =>
    match parse_expression toks fuel p false .type_i32 with
    | .error e => .error e
    | .ok (a, p1) =>
      match (cur_tok toks p1).kind with
      | .comma => parse_call_args toks fuel (args ++ [a]) (get_next_token toks p1)
      | .rparen => .ok (args ++ [a], get_next_token toks p1)
      | _ => error_at "expected comma or closing paren in argument list" toks p1
termination_by structural fuel

/-- Modelled from the spec: parse_paren_expression (parser.h line 270)
consumes the opening paren, an inner expression with no trailing semicolon,
and the closing paren (spec section 4.3). -/
def parse_paren_expression (toks : List Token) (fuel : Nat) (p : Nat) :
    Except PErr (Expr × Nat) :=
  match fuel with
  | 0 => fuel_error
  | fuel + 1 =>
    let p1 := get_next_token toks p
    match parse_expression toks fuel p1 false .type_i32 with
    | .error e => .error e
    | .ok (e, p2) =>
      match (cur_tok toks p2).kind with
      | .rparen => .ok (e, get_next_token toks p2)
      | _ => error_at "expected closing paren" toks p2
termination_by structural fuel

/-- Modelled from the spec: parse_typecast_expression (parser.h line 280)
consumes the type keyword, a paren, an inner expression and the closing
paren, and emits a TypeCast node (spec section 4.3). -/
def parse_typecast_expression (toks : List Token) (fuel : Nat) (p : Nat) :
    Except PErr (Expr × Nat) :=
  match fuel with
  | 0 => fuel_error
  | fuel + 1 =>
    let t := type_string_to_variable_type (cur_tok toks p).lexeme
    if t = .type_null then error_at "unknown type keyword in cast" toks p
    else
      let p1 := get_next_token toks p
      match (cur_tok toks p1).kind with
      | .lparen =>
        match parse_expression toks fuel (get_next_token toks p1) false
            .type_i32 with
        | .error e => .error e
        | .ok (e, p2) =>
          match (cur_tok toks p2).kind with
          | .rparen => .ok (.TypeCast e t, get_next_token toks p2)
          | _ => error_at "expected closing paren in typecast" toks p2
      | _ => error_at "expected opening paren in typecast" toks p1
termination_by structural fuel

/-- Modelled from the spec: parse_bin_op_rhs (parser.h line 273), the
precedence-climbing loop of spec section 4.3: while the current operator has
precedence at least expr_prec, consume it, parse a primary right operand,
extend the right operand recursively while the next operator binds strictly
tighter, and fold into a left-nested Binary node. -/
def parse_bin_op_rhs (toks : List Token) (fuel : Nat) (expr_prec : Int)
    (lhs : Expr) (p : Nat) (ty : Variable_Types) : Except PErr (Expr × Nat) :=
  match fuel with
  | 0 => fuel_error
  | fuel + 1 =>
    let pr := get_tok_precedence toks p
    if pr < expr_prec then .ok (lhs, p)
    else
      let op := (cur_tok toks p).lexeme
      let p1 := get_next_token toks p
      match parse_primary toks fuel p1 ty with
      | .error e => .error e
      | .ok (rhs, p2) =>
        let pr2 := get_tok_precedence toks p2
        if pr < pr2 then
          match parse_bin_op_rhs toks fuel (pr + 1) rhs p2 ty with
          | .error e => .error e
          | .ok (rhs2, p3) =>
            parse_bin_op_rhs toks fuel expr_prec (.Binary op lhs rhs2) p3 ty
        else
          parse_bin_op_rhs toks fuel expr_prec (.Binary op lhs rhs) p2 ty
termination_by structural fuel

/-- Modelled from the spec: parse_expression (parser.h line 274) parses a
primary, extends it by precedence climbing from minimal precedence 0, and,
when needs_semicolon holds, consumes the trailing semicolon (spec section
4.3). -/
def parse_expression (toks : List Token) (fuel : Nat) (p : Nat)
    (needs_semicolon : Bool) (ty : Variable_Types) :
    Except PErr (Expr × Nat) :=
  match fuel with
  | 0 => fuel_error
  | fuel + 1 =>
    match parse_primary toks fuel p ty with
    | .error e => .error e
    | .ok (lhs, p1) =>
      match parse_bin_op_rhs toks fuel 0 lhs p1 ty with
      | .error e => .error e
      | .ok (e, p2) =>
        if needs_semicolon then
          match (cur_tok toks p2).kind with
          | .semicolon => .ok (e, get_next_token toks p2)
          | _ => error_at "expected semicolon" toks p2
        else .ok (e, p2)
termination_by structural fuel

/-- Modelled from the spec: the condition list of parse_if (spec section
4.4): each condition is a primary, a comparison token and a primary;
conditions are joined by short-circuit separator tokens and the list is
terminated by the closing paren.  Conditions and separators accumulate in
parallel, one more condition than separators. -/
def parse_if_conditions (toks : List Token) (fuel : Nat)
    (conds : List Condition) (seps : List Token_Types) (p : Nat) :
    Except PErr ((List Condition × List Token_Types) × Nat) :=
  match fuel with
  | 0 => fuel_error
  | fuel + 1 =>
    match parse_primary toks fuel p .type_null with
    | .error e => .error e
    | .ok (lhs, p1) =>
      if is_comparison (cur_tok toks p1).kind then
        let op := (cur_tok toks p1).kind
        match parse_primary toks fuel (get_next_token toks p1) .type_null with
        | .error e => .error e
        | .ok (rhs, p2) =>
          let conds1 := conds ++ [Condition.mk lhs op rhs]
          match (cur_tok toks p2).kind with
          | .and_and =>
            parse_if_conditions toks fuel conds1 (seps ++ [.and_and])
              (get_next_token toks p2)
          | .or_or =>
            parse_if_conditions toks fuel conds1 (seps ++ [.or_or])
              (get_next_token toks p2)
          | .rparen => .ok ((conds1, seps), get_next_token toks p2)
          | _ => error_at "expected separator or closing paren in if" toks p2
      else error_at "expected comparison operator in if condition" toks p1
termination_by structural fuel

/-- Modelled from the spec: parse_if (parser.h line 281) consumes the if
keyword, the parenthesised condition list and the braced body, emitting an
If node (spec section 4.4).  The enclosing return type rt is threaded to the
body so return statements inside the body receive their context type. -/
def parse_if (toks : List Token) (fuel : Nat) (rt : Variable_Types)
    (p : Nat) : Except PErr (Expr × Nat) :=
  match fuel with
  | 0 => fuel_error
  | fuel + 1 =>
    let p1 := get_next_token toks p
    match (cur_tok toks p1).kind with
    | .lparen =>
      match parse_if_conditions toks fuel [] [] (get_next_token toks p1) with
      | .error e => .error e
      | .ok ((conds, seps), p2) =>
        match (cur_tok toks p2).kind with
        | .lbrace =>
          match parse_fn_body toks fuel rt (get_next_token toks p2) with
          | .error e => .error e
          | .ok (body, p3) => .ok (.IfE conds seps body, p3)
        | _ => error_at "expected opening brace after if conditions" toks p2
    | _ => error_at "expected opening paren after if keyword" toks p1
termination_by structural fuel

/-- Modelled from the spec: parse_fn_body (parser.h line 275) repeatedly
parses nodes through the dispatch of parse_token until the closing brace,
which it consumes (spec section 4.5).  The enclosing return type rt is
threaded through to return statements. -/
def parse_fn_body (toks : List Token) (fuel : Nat) (rt : Variable_Types)
    (p : Nat) : Except PErr (List Node × Nat) :=
  match fuel with
  | 0 => fuel_error
  | fuel + 1 =>
    match (cur_tok toks p).kind with
    | .rbrace => .ok ([], get_next_token toks p)
    | _ =>
      match parse_token toks fuel rt p with
      | .error e => .error e
      | .ok (n, p1) =>
        match parse_fn_body toks fuel rt p1 with
        | .error e => .error e
        | .ok (ns, p2) => .ok (n :: ns, p2)
termination_by structural fuel

/-- Modelled from the spec: parse_fn_declaration (parser.h line 277)
consumes the fn keyword, the prototype and the braced body, and emits a
Function node through the Function_Node constructor (spec section 4.5).  The
constructor leaves the return-slot and end-block handles indeterminate; the
parse result never observes them, and 0 is passed as the modelled
indeterminate content. -/
def parse_fn_declaration (toks : List Token) (fuel : Nat) (p : Nat) :
    Except PErr (Function_Node × Nat) :=
  match fuel with
  | 0 => fuel_error
  | fuel + 1 =>
    let p1 := get_next_token toks p
    match parse_prototype toks fuel p1 with
    | .error e => .error e
    | .ok (proto, p2) =>
      match (cur_tok toks p2).kind with
      | .lbrace =>
        match parse_fn_body toks fuel proto.return_type
            (get_next_token toks p2) with
        | .error e => .error e
        | .ok (body, p3) =>
          .ok (Function_Node.ctor proto body proto.arg_types 0 0, p3)
      | _ => error_at "expected opening brace after prototype" toks p2
termination_by structural fuel

/-- Modelled from the spec: parse_variable_declaration (parser.h line 278)
consumes the type keyword, the variable name and the equals sign, parses the
initializer with the declared type as context type and a trailing semicolon,
and emits a Variable node (spec section 4.5). -/
def parse_variable_declaration (toks : List Token) (fuel : Nat) (p : Nat) :
    Except PErr (Variable_Node × Nat) :=
  match fuel with
  | 0 => fuel_error
  | fuel + 1 =>
    let t := type_string_to_variable_type (cur_tok toks p).lexeme
    if t = .type_null then
      error_at "unknown type keyword in declaration" toks p
    else
      let p1 := get_next_token toks p
      match (cur_tok toks p1).kind with
      | .identifier =>
        let name := (cur_tok toks p1).lexeme
        let p2 := get_next_token toks p1
        match (cur_tok toks p2).kind with
        | .eq_tok =>
          match parse_expression toks fuel (get_next_token toks p2) true t with
          | .error e => .error e
          | .ok (v, p3) => .ok (.mk name t v, p3)
        | _ => error_at "expected equals sign in declaration" toks p2
      | _ => error_at "expected variable name" toks p1
termination_by structural fuel

/-- Modelled from the spec: parse_return_statement (parser.h line 279)
consumes the return keyword and parses the value with the enclosing function
return type rt as context type and a trailing semicolon (spec section 4.5);
rt is the responsibility of the caller to pass in. -/
def parse_return_statement (toks : List Token) (fuel : Nat)
    (rt : Variable_Types) (p : Nat) : Except PErr (Return_Node × Nat) :=
  match fuel with
  | 0 => fuel_error
  | fuel + 1 =>
    let p1 := get_next_token toks p
    match parse_expression toks fuel p1 true rt with
    | .error e => .error e
    | .ok (v, p2) => .ok (.mk v, p2)
termination_by structural fuel

/-- Modelled from the spec: parse_token (parser.h line 249), the statement
dispatch of spec section 4.5, wrapping each production into a Node whose tag
selects the single populated payload slot.  A statement headed neither by
fn, a type keyword, return nor if is parsed as an expression statement; a
String expression statement is tagged UnknownNode because the Node_Types
enumeration of parser.h has no string tag. -/
def parse_token (toks : List Token) (fuel : Nat) (rt : Variable_Types)
    (p : Nat) : Except PErr (Node × Nat) :=
  match fuel with
  | 0 => fuel_error
  | fuel + 1 =>
    match (cur_tok toks p).kind with
    | .kw_fn =>
      match parse_fn_declaration toks fuel p with
      | .error e => .error e
      | .ok (fn, p1) =>
        .ok (.mk .FunctionDeclarationNode none none (some (.FuncP fn))
          none none none, p1)
    | .type_kw =>
      match parse_variable_declaration toks fuel p with
      | .error e => .error e
      | .ok (v, p1) =>
        .ok (.mk .VariableDeclarationNode none (some (.VarP v)) none
          none none none, p1)
    | .kw_return =>
      match parse_return_statement toks fuel rt p with
      | .error e => .error e
      | .ok (r, p1) =>
        .ok (.mk .ReturnNode none none none none (some (.RetP r)) none, p1)
    | .kw_if =>
      match parse_if toks fuel rt p with
      | .error e => .error e
      | .ok (e, p1) =>
        .ok (.mk .IfNode (some (.ExprP e)) none none none none none, p1)
    | _ =>
      match parse_expression toks fuel p true .type_i32 with
      | .error e => .error e
      | .ok (e, p1) =>
        .ok (.mk (expr_tag e) (some (.ExprP e)) none none none none none, p1)
termination_by structural fuel
end

/-- Modelled from the spec: the top-level loop of parse_tokens (parser.h
line 247), repeatedly dispatching through parse_token until end-of-input and
appending each node to the result vector (spec section 4.6).  At top level
there is no enclosing function, so the null sentinel is passed as the return
context type. -/
def parse_tokens_loop (toks : List Token) (fuel : Nat) (acc : List Node)
    (p : Nat) : Except PErr (List Node × Nat) :=
  match fuel with
  | 0 => fuel_error
  | fuel + 1 =>
    if (cur_tok toks p).kind = .eof then .ok (acc, p)
    else
      match parse_token toks fuel .type_null p with
      | .error e => .error e
      | .ok (n, p1) => parse_tokens_loop toks fuel (acc ++ [n]) p1

/-- Modelled from the spec: parse_tokens (parser.h lines 247-248) assigns
the global token vector, initialises the cursor at index 0 and runs the
top-level loop; the final cursor index is returned alongside the node vector
(in the C++ code the cursor is global state).  The fuel bound is generous;
exhausting it is a failure, never a wrong success. -/
def parse_tokens (tokens : List Token) : Except PErr (List Node × Nat) :=
  parse_tokens_loop tokens ((tokens.length + 1) * 64) [] 0

/-- Invocation of parse_expression with no explicit arguments: both optional
parameters take their declared defaults. -/
def parse_expression_with_defaults (toks : List Token) (fuel : Nat)
    (p : Nat) : Except PErr (Expr × Nat) :=
  parse_expression toks fuel p parse_expression_default_needs_semicolon
    parse_expression_default_type

/-- Invocation of parse_primary with no explicit type argument. -/
def parse_primary_with_defaults (toks : List Token) (fuel : Nat) (p : Nat) :
    Except PErr (Expr × Nat) :=
  parse_primary toks fuel p parse_primary_default_type

/-- Invocation of parse_bin_op_rhs with no explicit type argument. -/
def parse_bin_op_rhs_with_defaults (toks : List Token) (fuel : Nat)
    (expr_prec : Int) (lhs : Expr) (p : Nat) : Except PErr (Expr × Nat) :=
  parse_bin_op_rhs toks fuel expr_prec lhs p parse_bin_op_rhs_default_type

/-- Number of populated alternatives carried by one payload slot. -/
def slot_count (o : Option NodePayload) : Nat := if o.isSome then 1 else 0

/-- Tags whose payload lives in the expression_node slot: every expression
statement tag, including UnknownNode, which the parser uses for String
expression statements because the Node_Types enumeration has no string tag. -/
def is_expr_tag : Node_Types → Bool
  | .UnknownNode => true
  | .NumberExpressionNode => true
  | .VariableExpressionNode => true
  | .BinaryExpressionNode => true
  | .CallExpressionNode => true
  | .TypeCastNode => true
  | .AssignmentNode => true
  | .IfNode => true
  | .ImportNode => true
  | _ => false

/-- Well-formedness of a Node value: exactly one of the six payload slots is
populated, and the populated slot, together with the payload alternative it
holds, matches the type tag (an expression tag holds an Expression payload
in the expression_node slot, a variable declaration holds a Variable payload
in the variable_node slot, a function declaration holds a Function payload
in the function_node slot, a return holds a Return payload in the
return_node slot). -/
def node_wf_b (n : Node) : Bool :=
  match n with
  | .mk t e v f p r c =>
    (slot_count e + slot_count v + slot_count f + slot_count p
      + slot_count r + slot_count c == 1) &&
    (match t, e, v, f, r with
     | t, some (.ExprP _), none, none, none => is_expr_tag t
     | .VariableDeclarationNode, none, some (.VarP _), none, none => true
     | .FunctionDeclarationNode, none, none, some (.FuncP _), none => true
     | .ReturnNode, none, none, none, some (.RetP _) => true
     | _, _, _, _, _ => false)

/-! Theorems.  Concrete token streams used by the theorems and witnesses. -/

/-- Token stream for a right context of the form op1 b op2 c followed by a
semicolon, as seen by parse_bin_op_rhs after the left operand was parsed. -/
def c1_toks (op1 nb op2 nc : String) : List Token :=
  [⟨.op_tok, op1, 0⟩, ⟨.int_lit, nb, 1⟩, ⟨.op_tok, op2, 2⟩,
   ⟨.int_lit, nc, 3⟩, ⟨.semicolon, ";", 4⟩]

/-- Token stream for a variable declaration with a bare integer literal
initializer: a type keyword with lexeme s, a name, an equals sign, the
literal and the semicolon. -/
def c2_toks (s name num : String) : List Token :=
  [⟨.type_kw, s, 0⟩, ⟨.identifier, name, 1⟩, ⟨.eq_tok, "=", 2⟩,
   ⟨.int_lit, num, 3⟩, ⟨.semicolon, ";", 4⟩]

/-- Token stream for a return statement returning a bare integer literal. -/
def c8_toks (num : String) : List Token :=
  [⟨.kw_return, "return", 0⟩, ⟨.int_lit, num, 1⟩, ⟨.semicolon, ";", 2⟩]

/-- Token stream of the prototype add(i32 a, i32 b) -> i32. -/
def c3_toks : List Token :=
  [⟨.identifier, "add", 0⟩, ⟨.lparen, "(", 1⟩, ⟨.type_kw, "i32", 2⟩,
   ⟨.identifier, "a", 3⟩, ⟨.comma, ",", 4⟩, ⟨.type_kw, "i32", 5⟩,
   ⟨.identifier, "b", 6⟩, ⟨.rparen, ")", 7⟩, ⟨.arrow, "->", 8⟩,
   ⟨.type_kw, "i32", 9⟩]

/-- Token stream of if (a < b && b < c) with an empty braced body. -/
def c4_toks : List Token :=
  [⟨.kw_if, "if", 0⟩, ⟨.lparen, "(", 1⟩, ⟨.identifier, "a", 2⟩,
   ⟨.lt_tok, "<", 3⟩, ⟨.identifier, "b", 4⟩, ⟨.and_and, "&&", 5⟩,
   ⟨.identifier, "b", 6⟩, ⟨.lt_tok, "<", 7⟩, ⟨.identifier, "c", 8⟩,
   ⟨.rparen, ")", 9⟩, ⟨.lbrace, "", 10⟩, ⟨.rbrace, "", 11⟩]

/-- Token stream of the malformed declaration i32 x = ; from the negative
cases of spec section 8. -/
def c6_toks : List Token :=
  [⟨.type_kw, "i32", 0⟩, ⟨.identifier, "x", 1⟩, ⟨.eq_tok, "=", 2⟩,
   ⟨.semicolon, ";", 3⟩]

/-- C1: for a stream op1 b op2 c with both operators of positive precedence,
precedence climbing from minimal precedence 0 with left operand a produces
Binary(op1, a, Binary(op2, b, c)) when prec(op1) < prec(op2), and the
left-associated Binary(op2, Binary(op1, a, b), c) when
prec(op2) <= prec(op1); ties therefore associate to the left. -/
theorem c1_precedence_climbing_shapes (a : Expr) (op1 nb op2 nc : String)
    (ty : Variable_Types)
    (h1 : 0 < prec_of op1) (h2 : 0 < prec_of op2) :
    (prec_of op1 < prec_of op2 →
      parse_bin_op_rhs (c1_toks op1 nb op2 nc) 16 0 a 0 ty =
        .ok (.Binary op1 a
          (.Binary op2 (.Number nb (number_type_of ty .int_lit))
            (.Number nc (number_type_of ty .int_lit))), 4))
    ∧ (prec_of op2 ≤ prec_of op1 →
      parse_bin_op_rhs (c1_toks op1 nb op2 nc) 16 0 a 0 ty =
        .ok (.Binary op2
          (.Binary op1 a (.Number nb (number_type_of ty .int_lit)))
          (.Number nc (number_type_of ty .int_lit)), 4)) := by
  constructor
  · intro hlt
    have hn1 : ¬ (prec_of op1 < 0) := by omega
    have hn2 : ¬ (prec_of op2 < prec_of op1 + 1) := by omega
    have hn3 : ¬ (prec_of op2 < -1) := by omega
    have hp4 : (-1 : Int) < prec_of op1 + 1 := by omega
    have hsemi : prec_of ";" = -1 := rfl
    simp [parse_bin_op_rhs, parse_primary, parse_number_expression, cur_tok,
      get_next_token, get_tok_precedence, c1_toks, hn1, hn2, hn3, hp4, hlt,
      hsemi]
  · intro hge
    have hn1 : ¬ (prec_of op1 < 0) := by omega
    have hn2 : ¬ (prec_of op1 < prec_of op2) := by omega
    have hn3 : ¬ (prec_of op2 < 0) := by omega
    have hn4 : ¬ (prec_of op2 < -1) := by omega
    have hsemi : prec_of ";" = -1 := rfl
    simp [parse_bin_op_rhs, parse_primary, parse_number_expression, cur_tok,
      get_next_token, get_tok_precedence, c1_toks, hn1, hn2, hn3, hn4, hsemi]

/-- Witness for C1 at concrete operators: a + b * c nests to the right
because 20 < 40, and a + b - c associates to the left because the
precedences tie at 20. -/
theorem c1_precedence_climbing_shapes_witness :
    parse_bin_op_rhs (c1_toks "+" "2" "*" "3") 16 0 (.Variable "a") 0
        .type_i32 =
      .ok (.Binary "+" (.Variable "a")
        (.Binary "*" (.Number "2" (number_type_of .type_i32 .int_lit))
          (.Number "3" (number_type_of .type_i32 .int_lit))), 4)
    ∧ parse_bin_op_rhs (c1_toks "+" "2" "-" "3") 16 0 (.Variable "a") 0
        .type_i32 =
      .ok (.Binary "-"
        (.Binary "+" (.Variable "a")
          (.Number "2" (number_type_of .type_i32 .int_lit)))
        (.Number "3" (number_type_of .type_i32 .int_lit)), 4) :=
  ⟨(c1_precedence_climbing_shapes (.Variable "a") "+" "2" "*" "3" .type_i32
      (by decide) (by decide)).1 (by decide),
   (c1_precedence_climbing_shapes (.Variable "a") "+" "2" "-" "3" .type_i32
      (by decide) (by decide)).2 (by decide)⟩

/-- C2: a variable declaration whose type keyword resolves to a non-null
type t threads t as context type into the initializer expression, so a bare
integer literal initializer is typed t, not the top-level default i32; the
trailing semicolon is consumed. -/
theorem c2_declaration_contextual_typing (s name num : String)
    (h : type_string_to_variable_type s ≠ .type_null) :
    parse_variable_declaration (c2_toks s name num) 16 0 =
      .ok (.mk name (type_string_to_variable_type s)
        (.Number num (type_string_to_variable_type s)), 5) := by
  have hne : ¬ (type_string_to_variable_type s = .type_null) := h
  have hsemi : prec_of ";" = -1 := rfl
  simp [parse_variable_declaration, parse_expression, parse_primary,
    parse_number_expression, number_type_of, parse_bin_op_rhs, cur_tok,
    get_next_token, get_tok_precedence, c2_toks, hne, hsemi]

/-- Witness for C2: i64 x = 3; produces Number(3, i64). -/
theorem c2_declaration_contextual_typing_witness :
    parse_variable_declaration (c2_toks "i64" "x" "3") 16 0 =
      .ok (.mk "x" (type_string_to_variable_type "i64")
        (.Number "3" (type_string_to_variable_type "i64")), 5) :=
  c2_declaration_contextual_typing "i64" "x" "3" (by decide)

/-- C8: parse_return_statement parses the returned value with the enclosing
function return type rt, passed in by the caller, as context type, so a bare
integer literal after the return keyword is typed rt. -/
theorem c8_return_value_context_type (rt : Variable_Types) (num : String)
    (h : rt ≠ .type_null) :
    parse_return_statement (c8_toks num) 16 rt 0 =
      .ok (.mk (.Number num rt), 3) := by
  have hne : ¬ (rt = .type_null) := h
  have hsemi : prec_of ";" = -1 := rfl
  simp [parse_return_statement, parse_expression, parse_primary,
    parse_number_expression, number_type_of, parse_bin_op_rhs, cur_tok,
    get_next_token, get_tok_precedence, c8_toks, hne, hsemi]

/-- Witness for C8: inside a function returning i64, return 3; produces
Number(3, i64). -/
theorem c8_return_value_context_type_witness :
    parse_return_statement (c8_toks "3") 16 .type_i64 0 =
      .ok (.mk (.Number "3" .type_i64), 3) :=
  c8_return_value_context_type .type_i64 "3" (by decide)

/-- C9 counterexample: the Function_Node constructor does not initialise the
raw pointer members, so a construction in which the indeterminate contents
are nonzero leaves the return-slot handle holding a value; the claim that it
holds no value (the null pointer, 0 in this model) is false for that
construction. -/
theorem c9_uninitialised_handles_counterexample :
    ¬ ((Function_Node.ctor ⟨"f", [], [], .type_void⟩ [] [] 1 1).variables = []
       ∧ (Function_Node.ctor ⟨"f", [], [], .type_void⟩ [] []
            1 1).get_return_value_ptr = 0
       ∧ (Function_Node.ctor ⟨"f", [], [], .type_void⟩ [] [] 1 1).get_end_bb
          = 0) := by
  intro hc
  exact absurd hc.2.1 (by decide)

/-- C9 amended: immediately after the Function_Node constructor runs, the
variable scope map contains no entries (the std::map member is
default-constructed), while the return-slot and end-block handles merely
pass through whatever indeterminate contents the uninitialised members held,
so they are not guaranteed to be empty. -/
theorem c9_ctor_codegen_state (proto : Prototype_Node) (body : List Node)
    (types : List Variable_Types) (r : IRValue) (e : IRBB) :
    (Function_Node.ctor proto body types r e).variables = []
    ∧ (∀ nm, (Function_Node.ctor proto body types r e).get_variable nm = none)
    ∧ (Function_Node.ctor proto body types r e).get_return_value_ptr = r
    ∧ (Function_Node.ctor proto body types r e).get_end_bb = e :=
  ⟨rfl, fun _ => rfl, rfl, rfl⟩

/-- C10: the declared defaults of parser.h lines 272-274: parse_expression
defaults to needing a trailing semicolon and to context type i32, while
parse_primary and parse_bin_op_rhs default their context type to the null
sentinel, which differs from i32, so the i32 default lives only at the
parse_expression entry point; invoking each function with its defaults is
invoking it at those values. -/
theorem c10_default_arguments :
    parse_expression_default_needs_semicolon = true
    ∧ parse_expression_default_type = .type_i32
    ∧ parse_primary_default_type = .type_null
    ∧ parse_bin_op_rhs_default_type = .type_null
    ∧ parse_primary_default_type ≠ parse_expression_default_type
    ∧ (∀ toks fuel p, parse_expression_with_defaults toks fuel p =
        parse_expression toks fuel p true .type_i32)
    ∧ (∀ toks fuel p, parse_primary_with_defaults toks fuel p =
        parse_primary toks fuel p .type_null)
    ∧ (∀ toks fuel pr lhs p, parse_bin_op_rhs_with_defaults toks fuel pr lhs p =
        parse_bin_op_rhs toks fuel pr lhs p .type_null) :=
  ⟨rfl, rfl, rfl, rfl, by decide, fun _ _ _ => rfl, fun _ _ _ => rfl,
   fun _ _ _ _ _ => rfl⟩

/-- Helper for C3: the parameter loop of parse_prototype appends one type
and one name per iteration, so it preserves equality of the accumulated
lengths. -/
theorem parse_proto_params_parallel (toks : List Token) (fuel : Nat) :
    ∀ tys names p out p1,
      parse_proto_params toks fuel tys names p = .ok (out, p1) →
      tys.length = names.length → out.1.length = out.2.length := by
  induction fuel with
  | zero =>
    intro tys names p out p1 h
    simp [parse_proto_params, fuel_error] at h
  | succ f ih =>
    intro tys names p out p1 h hlen
    simp only [parse_proto_params] at h
    split at h
    · split at h
      · simp [error_at] at h
      · split at h
        · split at h
          · exact ih _ _ _ _ _ h (by simp [hlen])
          · simp only [Except.ok.injEq, Prod.mk.injEq] at h
            obtain ⟨ha, hb⟩ := h
            subst ha
            simp [hlen]
          · simp [error_at] at h
        · simp [error_at] at h
    · simp [error_at] at h

/-- C3: every Prototype node produced by parse_prototype has as many
argument names as argument types. -/
theorem c3_prototype_parallel_lists (toks : List Token) (fuel : Nat)
    (p : Nat) (proto : Prototype_Node) (p1 : Nat)
    (h : parse_prototype toks fuel p = .ok (proto, p1)) :
    proto.arg_names.length = proto.arg_types.length := by
  simp only [parse_prototype] at h
  split at h
  · split at h
    · split at h
      · simp at h
      · rename_i tys names p3 heq
        split at h
        · split at h
          · split at h
            · simp [error_at] at h
            · simp only [Except.ok.injEq, Prod.mk.injEq] at h
              obtain ⟨hp, hst⟩ := h
              subst hp
              split at heq
              · simp only [Except.ok.injEq, Prod.mk.injEq] at heq
                obtain ⟨⟨h1, h2⟩, h3⟩ := heq
                subst h1; subst h2; rfl
              · exact
                  (parse_proto_params_parallel toks fuel _ _ _ _ _ heq rfl).symm
          · simp [error_at] at h
        · simp [error_at] at h
    · simp [error_at] at h
  · simp [error_at] at h

/-- Witness for C3 on the prototype add(i32 a, i32 b) -> i32. -/
theorem c3_prototype_parallel_lists_witness :
    (Prototype_Node.mk "add" [.type_i32, .type_i32] ["a", "b"]
      .type_i32).arg_names.length =
    (Prototype_Node.mk "add" [.type_i32, .type_i32] ["a", "b"]
      .type_i32).arg_types.length :=
  c3_prototype_parallel_lists c3_toks 16 0
    (Prototype_Node.mk "add" [.type_i32, .type_i32] ["a", "b"] .type_i32)
    10 rfl

/-- Helper for C4: the condition loop of parse_if pushes one condition per
iteration and one separator per continued iteration, so from accumulators
with equal lengths it returns one more condition than separators. -/
theorem parse_if_conditions_counts (toks : List Token) (fuel : Nat) :
    ∀ conds seps p out p1,
      parse_if_conditions toks fuel conds seps p = .ok (out, p1) →
      conds.length = seps.length → out.1.length = out.2.length + 1 := by
  induction fuel with
  | zero =>
    intro conds seps p out p1 h
    simp [parse_if_conditions, fuel_error] at h
  | succ f ih =>
    intro conds seps p out p1 h hlen
    simp only [parse_if_conditions] at h
    split at h
    · simp at h
    · split at h
      · split at h
        · simp at h
        · split at h
          · exact ih _ _ _ _ _ h (by simp [hlen])
          · exact ih _ _ _ _ _ h (by simp [hlen])
          · simp only [Except.ok.injEq, Prod.mk.injEq] at h
            obtain ⟨h1, h2⟩ := h
            subst h1
            simp [hlen]
          · simp [error_at] at h
      · simp [error_at] at h

/-- C4: every If node produced by parse_if carries one more condition than
separators; in particular it has at least one condition, and the number of
separators is the number of conditions minus one. -/
theorem c4_if_condition_separator_counts (toks : List Token) (fuel : Nat)
    (rt : Variable_Types) (p : Nat) (conds : List Condition)
    (seps : List Token_Types) (body : List Node) (p1 : Nat)
    (h : parse_if toks fuel rt p = .ok (.IfE conds seps body, p1)) :
    conds.length = seps.length + 1 := by
  cases fuel with
  | zero => simp [parse_if, fuel_error] at h
  | succ f =>
    simp only [parse_if] at h
    split at h
    · split at h
      · simp at h
      · rename_i conds0 seps0 p2 heq
        split at h
        · split at h
          · simp at h
          · simp only [Except.ok.injEq, Prod.mk.injEq, Expr.IfE.injEq] at h
            obtain ⟨⟨hc, hs, hb⟩, hp⟩ := h
            subst hc; subst hs
            exact parse_if_conditions_counts toks f [] [] _ _ _ heq rfl
        · simp [error_at] at h
    · simp [error_at] at h

/-- Witness for C4 on if (a < b && b < c): two conditions, one separator. -/
theorem c4_if_condition_separator_counts_witness :
    ([Condition.mk (.Variable "a") .lt_tok (.Variable "b"),
      Condition.mk (.Variable "b") .lt_tok (.Variable "c")] :
        List Condition).length =
    ([Token_Types.and_and] : List Token_Types).length + 1 :=
  c4_if_condition_separator_counts c4_toks 16 .type_null 0
    [Condition.mk (.Variable "a") .lt_tok (.Variable "b"),
     Condition.mk (.Variable "b") .lt_tok (.Variable "c")]
    [Token_Types.and_and] [] 12 rfl

/-- Helper for C5: the tag the parser gives an expression statement is
always one of the expression tags. -/
theorem is_expr_tag_expr_tag (e : Expr) : is_expr_tag (expr_tag e) = true := by
  cases e <;> rfl

/-- C5: every Node value produced by the statement dispatch parse_token,
including the nodes of nested function and if bodies, which are themselves
produced by recursive parse_token calls, populates exactly one of its six
payload slots, and the populated slot and payload alternative match the
type tag. -/
theorem c5_single_payload_matches_tag (toks : List Token) (fuel : Nat)
    (rt : Variable_Types) (p : Nat) (n : Node) (p1 : Nat)
    (h : parse_token toks fuel rt p = .ok (n, p1)) :
    node_wf_b n = true := by
  cases fuel with
  | zero => simp [parse_token, fuel_error] at h
  | succ f =>
    simp only [parse_token] at h
    split at h
    all_goals
      split at h
      · simp at h
      · simp only [Except.ok.injEq, Prod.mk.injEq] at h
        obtain ⟨h1, h2⟩ := h
        subst h1
        simp [node_wf_b, slot_count, is_expr_tag_expr_tag,
          (show is_expr_tag Node_Types.IfNode = true from rfl)]

/-- Witness for C5: the node parsed from i64 x = 3; is well formed. -/
theorem c5_single_payload_matches_tag_witness :
    node_wf_b (.mk .VariableDeclarationNode none
      (some (.VarP (.mk "x" .type_i64 (.Number "3" .type_i64)))) none none
      none none) = true :=
  c5_single_payload_matches_tag (c2_toks "i64" "x" "3") 16 .type_null 0
    (.mk .VariableDeclarationNode none
      (some (.VarP (.mk "x" .type_i64 (.Number "3" .type_i64)))) none none
      none none) 5 rfl

/-- C6: the top-level loop aborts on the first error: when the statement
parser fails on the current statement, the loop result is exactly that
failure, which carries the message and the offending token position, and no
partial vector of nodes is returned; there is no local recovery. -/
theorem c6_first_error_aborts (toks : List Token) (fuel : Nat)
    (acc : List Node) (p : Nat) (e : PErr)
    (hne : (cur_tok toks p).kind ≠ .eof)
    (herr : parse_token toks fuel .type_null p = .error e) :
    parse_tokens_loop toks (fuel + 1) acc p = .error e := by
  simp [parse_tokens_loop, hne, herr]

/-- Witness for C6: on i32 x = ; the loop returns the failure of the
statement parser, carrying the message and the position 3 of the offending
semicolon token. -/
theorem c6_first_error_aborts_witness :
    parse_tokens_loop c6_toks 17 [] 0 =
      .error ⟨"unknown token when expecting an expression", 3⟩ :=
  c6_first_error_aborts c6_toks 16 [] 0
    ⟨"unknown token when expecting an expression", 3⟩ (by decide) rfl

/-- Helper for C7: whenever the top-level loop returns successfully, the
final cursor position reads the end-of-input marker. -/
theorem parse_tokens_loop_ends_at_eof (toks : List Token) (fuel : Nat) :
    ∀ acc p ns p1, parse_tokens_loop toks fuel acc p = .ok (ns, p1) →
      (cur_tok toks p1).kind = .eof := by
  induction fuel with
  | zero =>
    intro acc p ns p1 h
    simp [parse_tokens_loop, fuel_error] at h
  | succ f ih =>
    intro acc p ns p1 h
    simp only [parse_tokens_loop] at h
    split at h
    · rename_i hc
      simp only [Except.ok.injEq, Prod.mk.injEq] at h
      obtain ⟨h1, h2⟩ := h
      subst h2
      exact hc
    · split at h
      · simp at h
      · exact ih _ _ _ _ h

/-- C7: when parse_tokens succeeds on a token stream that contains no
embedded end-of-input marker, the final cursor position is at or past the
end of the stream: the entire token stream has been consumed. -/
theorem c7_parse_tokens_consumes_stream (tokens : List Token)
    (ns : List Node) (p1 : Nat)
    (hno : ∀ t ∈ tokens, t.kind ≠ .eof)
    (h : parse_tokens tokens = .ok (ns, p1)) :
    tokens.length ≤ p1 := by
  have hend : (cur_tok tokens p1).kind = .eof :=
    parse_tokens_loop_ends_at_eof tokens _ _ _ _ _ h
  by_contra hge
  push_neg at hge
  have hmem : cur_tok tokens p1 ∈ tokens := by
    have hget : cur_tok tokens p1 = tokens.get ⟨p1, hge⟩ := by
      simp [cur_tok, List.getD_eq_getElem?_getD, List.getElem?_eq_getElem hge]
    rw [hget]
    exact List.get_mem tokens p1 hge
  exact hno _ hmem hend

/-- Witness for C7: parsing i64 x = 3; consumes all five tokens. -/
theorem c7_parse_tokens_consumes_stream_witness :
    (c2_toks "i64" "x" "3").length ≤ 5 :=
  c7_parse_tokens_consumes_stream (c2_toks "i64" "x" "3")
    [.mk .VariableDeclarationNode none
      (some (.VarP (.mk "x" .type_i64 (.Number "3" .type_i64)))) none none
      none none] 5 (by decide) rfl

end Yabl
